import Mathlib

/-!
Shallow embedding of the Polyclinic patient-roster program.

The source is a single C++ file: a polymorphic `Patient` base class with
derived `ChildPatient` and `ElderPatient`, and a `Polyclinic` container
owning a vector of cloned patients.  The three concrete classes form a
closed variant set, so `Patient` is embedded as an inductive type with one
constructor per concrete class; each virtual method becomes a function
defined by case analysis, matching the overrides in the source.  Throwing
operations return `Except ClinicError`.
-/

/-- The exception kinds thrown by the roster operations in the source
(`EmptyClinicError`, `PatientIndexError`); `FileSaveError` concerns only
file I/O and never arises from the in-memory operations modelled here. -/
inductive ClinicError where
  | emptyClinicError (msg : String)
  | patientIndexError (msg : String)
  deriving DecidableEq, Repr

/-- A patient record: one constructor per concrete C++ class.
`generic` is the base class `Patient`, `child` is `ChildPatient` with its
extra `parentContact` field, `elder` is `ElderPatient` with `allergies`
and `contraindications`. -/
inductive Patient where
  | generic (name : String) (age : Int) (disease : String)
  | child (name : String) (age : Int) (disease : String) (parentContact : String)
  | elder (name : String) (age : Int) (disease : String)
      (allergies : String) (contraindications : String)
  deriving DecidableEq, Repr

/-- Accessor `Patient::getName`: the `name` field lives in the base class. -/
def Patient.getName : Patient → String
  | .generic n _ _ => n
  | .child n _ _ _ => n
  | .elder n _ _ _ _ => n

/-- Accessor `Patient::getAge`. -/
def Patient.getAge : Patient → Int
  | .generic _ a _ => a
  | .child _ a _ _ => a
  | .elder _ a _ _ _ => a

/-- Accessor `Patient::getDisease`. -/
def Patient.getDisease : Patient → String
  | .generic _ _ d => d
  | .child _ _ d _ => d
  | .elder _ _ d _ _ => d

/-- The default constructor `Patient()`:
`name("Невідомо"), age(0), disease("Немає")`. -/
def defaultPatient : Patient := .generic "Невідомо" 0 "Немає"

/-- Virtual `clone()`: each override copy-constructs an object of its own
concrete class, field for field. -/
def Patient.clone : Patient → Patient
  | .generic n a d => .generic n a d
  | .child n a d pc => .child n a d pc
  | .elder n a d al ci => .elder n a d al ci

/-- Virtual `toLine()`: base prints `Patient|name|age|disease`; the child
override appends `|parentContact`; the elder override appends
`|allergies|contraindications`.  `std::to_string` on the age becomes
`toString` on `Int`. -/
def Patient.toLine : Patient → String
  | .generic n a d =>
      "Patient" ++ "|" ++ n ++ "|" ++ toString a ++ "|" ++ d
  | .child n a d pc =>
      "Child" ++ "|" ++ n ++ "|" ++ toString a ++ "|" ++ d ++ "|" ++ pc
  | .elder n a d al ci =>
      "Elder" ++ "|" ++ n ++ "|" ++ toString a ++ "|" ++ d ++ "|" ++ al ++ "|" ++ ci

/-- The leading tag of each variant's serialized line. -/
def Patient.variantTag : Patient → String
  | .generic _ _ _ => "Patient"
  | .child _ _ _ _ => "Child"
  | .elder _ _ _ _ _ => "Elder"

/-- The variant-specific extra fields appended after `disease` in the
serialized line. -/
def Patient.extraFields : Patient → List String
  | .generic _ _ _ => []
  | .child _ _ _ pc => [pc]
  | .elder _ _ _ al ci => [al, ci]

/-- `Patient::operator==`: compares only `name` and `age`; it is declared
on the base class and not virtual, so no derived field takes part. -/
def Patient.eqOp (x y : Patient) : Bool :=
  x.getName == y.getName && x.getAge == y.getAge

/-- `ChildPatient::needParentalPermission`: age below 18. -/
def Patient.needParentalPermission (p : Patient) : Bool :=
  p.getAge < 18

/-- The clinic: `name`, `address`, `doctorsCount`, and the owned ordered
sequence of patients (`std::vector<std::unique_ptr<Patient>>`). -/
structure Polyclinic where
  name : String
  address : String
  doctorsCount : Int
  patients : List Patient
  deriving DecidableEq, Repr

/-- The three-argument constructor: a negative `doctors` is clamped to 0. -/
def Polyclinic.make (name address : String) (doctors : Int) : Polyclinic :=
  { name := name, address := address,
    doctorsCount := if doctors < 0 then 0 else doctors,
    patients := [] }

/-- The copy constructor: copies the three scalar fields and pushes a
`clone()` of every source patient, in order. -/
def Polyclinic.copyConstruct (other : Polyclinic) : Polyclinic :=
  { name := other.name, address := other.address,
    doctorsCount := other.doctorsCount,
    patients := other.patients.map Patient.clone }

/-- `addPatient`: appends a clone of the argument. -/
def Polyclinic.addPatient (c : Polyclinic) (p : Patient) : Polyclinic :=
  { c with patients := c.patients ++ [p.clone] }

/-- `addChild`: builds a `ChildPatient` and appends it via `addPatient`. -/
def Polyclinic.addChild (c : Polyclinic) (pname : String) (age : Int)
    (disease parentContact : String) : Polyclinic :=
  c.addPatient (.child pname age disease parentContact)

/-- `addElder`: builds an `ElderPatient` and appends it via `addPatient`. -/
def Polyclinic.addElder (c : Polyclinic) (pname : String) (age : Int)
    (disease allergies contraindications : String) : Polyclinic :=
  c.addPatient (.elder pname age disease allergies contraindications)

/-- `removeLastPatient`: throws `EmptyClinicError` when the vector is
empty, otherwise `pop_back()`. -/
def Polyclinic.removeLastPatient (c : Polyclinic) : Except ClinicError Polyclinic :=
  if c.patients.isEmpty then
    .error (.emptyClinicError "Немає пацієнтів для видалення")
  else
    .ok { c with patients := c.patients.dropLast }

/-- `removePatientByIndex`: throws `PatientIndexError` when
`index >= patients.size()`, otherwise erases the element at `index`. -/
def Polyclinic.removePatientByIndex (c : Polyclinic) (index : Nat) :
    Except ClinicError Polyclinic :=
  if c.patients.length ≤ index then
    .error (.patientIndexError "Індекс за межами діапазону")
  else
    .ok { c with patients := c.patients.eraseIdx index }

/-- `getPatientsCount`: the length of the patient sequence. -/
def Polyclinic.getPatientsCount (c : Polyclinic) : Nat :=
  c.patients.length

/-- Prefix `operator++`: appends a default-constructed `Patient{}`. -/
def Polyclinic.incrementInPlace (c : Polyclinic) : Polyclinic :=
  c.addPatient defaultPatient

/-- Postfix `operator++`: saves a copy-constructed snapshot, applies the
prefix increment to the receiver, and returns the snapshot.  The first
component is the receiver's new state, the second the returned value. -/
def Polyclinic.incrementPostfix (c : Polyclinic) : Polyclinic × Polyclinic :=
  (c.incrementInPlace, c.copyConstruct)

/-- `operator+`: copy-constructs from the left operand, then overwrites
the name with `left + " + " + right`, the doctor count with the sum, and
appends a clone of every right-operand patient. -/
def Polyclinic.merge (c other : Polyclinic) : Polyclinic :=
  let merged := c.copyConstruct
  { merged with
    name := c.name ++ " + " ++ other.name,
    doctorsCount := c.doctorsCount + other.doctorsCount,
    patients := merged.patients ++ other.patients.map Patient.clone }

/-- `Polyclinic::operator==`: compares the two patient counts only. -/
def Polyclinic.eqOp (c other : Polyclinic) : Bool :=
  c.getPatientsCount == other.getPatientsCount

/-- Every clone override copies its object field for field, so cloning is
the identity on the embedded value. -/
theorem Patient.clone_eq (p : Patient) : p.clone = p := by
  cases p <;> rfl

/-- C1: copy construction preserves the clinic name, the address, the
doctor count and the patient count, and the copy's record at every index
equals the source's record at that index (same variant, field for field),
so the two records' serialized lines agree as well. -/
theorem copyConstruct_preserves (R : Polyclinic) :
    (R.copyConstruct).name = R.name ∧
    (R.copyConstruct).address = R.address ∧
    (R.copyConstruct).doctorsCount = R.doctorsCount ∧
    (R.copyConstruct).getPatientsCount = R.getPatientsCount ∧
    (∀ i : Nat, (R.copyConstruct).patients[i]? = R.patients[i]?) ∧
    (∀ i : Nat,
      ((R.copyConstruct).patients[i]?).map Patient.toLine
        = (R.patients[i]?).map Patient.toLine) := by
  have hclone : Patient.clone = id := funext Patient.clone_eq
  simp [Polyclinic.copyConstruct, Polyclinic.getPatientsCount, hclone]

/-- C2 counterexample: the default-constructed patient's name is the
Ukrainian string "Невідомо", not the string "Unknown" the claim states. -/
theorem defaultPatient_name_not_english :
    defaultPatient.getName = "Невідомо" ∧ defaultPatient.getName ≠ "Unknown" := by
  exact ⟨rfl, by decide⟩

/-- C2 (amended): a patient constructed with no arguments has name
"Невідомо" (Ukrainian for unknown), age 0, and disease "Немає"
(Ukrainian for none). -/
theorem defaultPatient_fields :
    defaultPatient.getName = "Невідомо" ∧ defaultPatient.getAge = 0 ∧
      defaultPatient.getDisease = "Немає" :=
  ⟨rfl, rfl, rfl⟩

/-- C3: the sample child record serializes exactly to
`Child|Marta|7|Cold|+380501112233`, and in general every record's line is
the variant tag, the name, the age and the disease followed by the
variant's extra fields, joined by the bar separator with no escaping. -/
theorem toLine_format :
    (Patient.child "Marta" 7 "Cold" "+380501112233").toLine
        = "Child|Marta|7|Cold|+380501112233" ∧
    ∀ p : Patient,
      p.toLine = String.intercalate "|"
        ([p.variantTag, p.getName, toString p.getAge, p.getDisease] ++ p.extraFields) := by
  refine ⟨by decide, ?_⟩
  intro p
  cases p <;> rfl

/-- C4: on an empty roster, removing the last patient throws
`EmptyClinicError` (and the roster value is untouched, since no new state
is produced); on a non-empty roster it removes exactly the tail record and
changes nothing else. -/
theorem removeLastPatient_spec (R : Polyclinic) :
    (R.getPatientsCount = 0 →
      R.removeLastPatient
        = .error (.emptyClinicError "Немає пацієнтів для видалення")) ∧
    (0 < R.getPatientsCount →
      R.removeLastPatient = .ok { R with patients := R.patients.dropLast }) := by
  unfold Polyclinic.removeLastPatient Polyclinic.getPatientsCount
  constructor
  · intro h
    have hnil : R.patients = [] := List.length_eq_zero.mp h
    simp [hnil]
  · intro h
    have hne : R.patients ≠ [] := List.length_pos.mp h
    simp [hne]

/-- C4 witness: the empty clinic from the source's own test throws. -/
theorem removeLastPatient_spec_witness :
    (Polyclinic.make "Порожня поліклініка" "Невідома адреса" 0).removeLastPatient
      = .error (.emptyClinicError "Немає пацієнтів для видалення") :=
  (removeLastPatient_spec (Polyclinic.make "Порожня поліклініка" "Невідома адреса" 0)).1 rfl

/-- C5: an indexed removal at a position at or past the count throws
`PatientIndexError` and produces no new state; at a valid position it
removes exactly the record there, shifting the suffix down by one. -/
theorem removePatientByIndex_spec (R : Polyclinic) (i : Nat) :
    (R.getPatientsCount ≤ i →
      R.removePatientByIndex i
        = .error (.patientIndexError "Індекс за межами діапазону")) ∧
    (i < R.getPatientsCount →
      R.removePatientByIndex i
        = .ok { R with patients := R.patients.take i ++ R.patients.drop (i + 1) }) := by
  unfold Polyclinic.removePatientByIndex Polyclinic.getPatientsCount
  constructor
  · intro h
    simp [h]
  · intro h
    simp [Nat.not_le.mpr h, List.eraseIdx_eq_take_drop_succ]

/-- C5 witness: removing index 0 from a one-patient roster keeps the
scalar fields and leaves the empty record list. -/
theorem removePatientByIndex_spec_witness :
    ((Polyclinic.make "A" "B" 1).addPatient defaultPatient).removePatientByIndex 0
      = .ok { (Polyclinic.make "A" "B" 1).addPatient defaultPatient with
              patients :=
                (((Polyclinic.make "A" "B" 1).addPatient defaultPatient).patients.take 0)
                  ++ (((Polyclinic.make "A" "B" 1).addPatient defaultPatient).patients.drop 1) } :=
  (removePatientByIndex_spec ((Polyclinic.make "A" "B" 1).addPatient defaultPatient) 0).2
    (by decide)

/-- C6: merging two rosters yields the concatenated name with the
separator, the summed doctor count, the cloned records of the left roster
followed by the cloned records of the right roster in order, and the
summed count; both operands are read-only in the source and remain
unchanged values here. -/
theorem merge_spec (A B : Polyclinic) :
    (A.merge B).name = A.name ++ " + " ++ B.name ∧
    (A.merge B).doctorsCount = A.doctorsCount + B.doctorsCount ∧
    (A.merge B).patients
      = A.patients.map Patient.clone ++ B.patients.map Patient.clone ∧
    (A.merge B).getPatientsCount = A.getPatientsCount + B.getPatientsCount := by
  simp [Polyclinic.merge, Polyclinic.copyConstruct, Polyclinic.getPatientsCount]

/-- C7: roster equality holds exactly when the two patient counts agree;
no record content, scalar field or ordering enters the comparison. -/
theorem eqOp_iff_count (A B : Polyclinic) :
    A.eqOp B = true ↔ A.getPatientsCount = B.getPatientsCount := by
  simp [Polyclinic.eqOp]

/-- C8: the postfix increment returns a snapshot whose scalar fields and
record sequence equal the receiver's pre-increment state, while the
receiver's new state has one more record, the new tail being the
default-constructed patient. -/
theorem incrementPostfix_spec (R : Polyclinic) :
    (R.incrementPostfix).2.name = R.name ∧
    (R.incrementPostfix).2.address = R.address ∧
    (R.incrementPostfix).2.doctorsCount = R.doctorsCount ∧
    (R.incrementPostfix).2.patients = R.patients ∧
    (R.incrementPostfix).1.getPatientsCount = R.getPatientsCount + 1 ∧
    (R.incrementPostfix).1.patients = R.patients ++ [defaultPatient] ∧
    (R.incrementPostfix).1.patients.getLast? = some defaultPatient := by
  have hclone : Patient.clone = id := funext Patient.clone_eq
  simp [Polyclinic.incrementPostfix, Polyclinic.incrementInPlace,
    Polyclinic.addPatient, Polyclinic.copyConstruct, Polyclinic.getPatientsCount,
    hclone, Patient.clone_eq]

/-- C9: two patient records, of any variants, compare equal exactly when
their names and ages agree; disease, variant-specific fields and the
variant itself play no part. -/
theorem patient_eqOp_iff (x y : Patient) :
    Patient.eqOp x y = true ↔ x.getName = y.getName ∧ x.getAge = y.getAge := by
  simp [Patient.eqOp]

/-- C10: the merged roster's address is the left operand's address,
carried over unchanged by the copy construction inside the merge. -/
theorem merge_address (A B : Polyclinic) : (A.merge B).address = A.address := by
  simp [Polyclinic.merge, Polyclinic.copyConstruct]
